import Mathlib

/-!
Verification of the German-language learning feedback pipeline
(`client/german_llm/`): the correction assembler, the learning-feedback
partition, the quality label, the session lifecycle and the configuration
lookup, shallowly embedded from the Python source.

Text is modelled as `List Char`; Python string slicing `s[:i]`, `s[i:]`
on character indices corresponds to `List.take i`, `List.drop i`
(both silently clamp at the ends, exactly as Python slices do).
-/

namespace GermanLLM

/-- A grammar match, as built by `LanguageToolClient.check_text`
(dataclass `GrammarMatch` in `languagetool_client.py`). -/
structure GrammarMatch where
  offset : Nat
  length : Nat
  rule_id : String
  category : String
  message : String
  short_message : String
  suggestions : List (List Char)
  context : String
  error_text : List Char
  rule_description : Option String
  urls : Option (List String)
  deriving DecidableEq

/-- Insert a match into a list that is sorted by offset descending,
keeping it before the first element of smaller-or-equal offset.
Folding this over the input list (see `sortByOffsetDesc`) realises the
stable descending sort performed by
`sorted(matches, key=lambda m: m.offset, reverse=True)`. -/
def insertDesc (m : GrammarMatch) : List GrammarMatch → List GrammarMatch
  | [] => [m]
  | y :: ys => if y.offset ≤ m.offset then m :: y :: ys else y :: insertDesc m ys

/-- Stable sort of matches by offset, descending (Python
`sorted(matches, key=lambda m: m.offset, reverse=True)`; ties keep
input order, as the stable Python sort does). -/
def sortByOffsetDesc (ms : List GrammarMatch) : List GrammarMatch :=
  ms.foldr insertDesc []

/-- One iteration of the loop body of
`LanguageToolClient._apply_corrections`: if the match has suggestions,
splice its first suggestion over the covered region
(`corrected[:start] + suggestions[0] + corrected[end:]`);
otherwise leave the string unchanged. -/
def applyMatch (corrected : List Char) (m : GrammarMatch) : List Char :=
  match m.suggestions with
  | [] => corrected
  | s :: _ => corrected.take m.offset ++ s ++ corrected.drop (m.offset + m.length)

/-- `LanguageToolClient._apply_corrections`: return `text` unchanged on an
empty match list, otherwise fold the splicing step over the matches
sorted by offset descending. -/
def apply_corrections (text : List Char) (ms : List GrammarMatch) : List Char :=
  if ms.isEmpty then text
  else (sortByOffsetDesc ms).foldl applyMatch text

/-- Build a match carrying only the fields `_apply_corrections` reads;
the remaining fields are filled with blanks. -/
def mkMatch (offset length : Nat) (category : String) (suggestions : List (List Char)) :
    GrammarMatch :=
  { offset := offset, length := length, rule_id := "", category := category,
    message := "", short_message := "", suggestions := suggestions,
    context := "", error_text := [], rule_description := none, urls := none }

/-- A raw match as returned by the external LanguageTool checker
(`self.tool.check(text)`); exactly the attributes `check_text` reads. -/
structure ToolMatch where
  offset : Nat
  errorLength : Nat
  ruleId : String
  category : String
  message : String
  replacements : List (List Char)
  context : String
  urls : Option (List String)
  deriving DecidableEq

/-- `LanguageToolClient._get_rule_description`: a fixed table with the
fallback `Regel: ` followed by the rule id. -/
def get_rule_description (rule_id : String) : String :=
  if rule_id = "GERMAN_SPELLCHECK" then "Rechtschreibprüfung"
  else if rule_id = "AGREEMENT_ERRORS" then
    "Kongruenzfehler (Subjekt-Prädikat-Übereinstimmung)"
  else if rule_id = "CASE_AGREEMENT" then "Kasuskongruenz"
  else if rule_id = "ARTICLE_MISSING" then "Fehlender Artikel"
  else if rule_id = "COMMA_COMPOUND_SENTENCE" then "Komma in zusammengesetzten Sätzen"
  else if rule_id = "WORD_ORDER" then "Wortstellung"
  else "Regel: " ++ rule_id

/-- Conversion of one raw checker match performed in the `check_text` loop:
suggestions are the first five replacements (`match.replacements[:5]`),
`error_text` is the slice `text[match.offset : match.offset + match.errorLength]`
(`drop` then `take` on character lists). -/
def toGrammarMatch (text : List Char) (m : ToolMatch) : GrammarMatch :=
  { offset := m.offset, length := m.errorLength, rule_id := m.ruleId,
    category := m.category, message := m.message, short_message := m.message,
    suggestions := m.replacements.take 5, context := m.context,
    error_text := (text.drop m.offset).take m.errorLength,
    rule_description := some (get_rule_description m.ruleId), urls := m.urls }

/-- The filter at the top of the `check_text` loop:
`if focus_categories and match.category not in focus_categories: continue`.
A match is kept when `focus_categories` is `None` or the empty list (both
falsy in Python), or contains the category. -/
def keepMatch (focus : Option (List String)) (m : ToolMatch) : Bool :=
  match focus with
  | none => true
  | some fc => fc.isEmpty || fc.contains m.category

/-- `categories_found[category] = categories_found.get(category, 0) + 1` on a
Python dict kept as an insertion-ordered association list: bump an existing
key in place, or append a new key at the end with count 1. -/
def bumpCategory : List (String × Nat) → String → List (String × Nat)
  | [], c => [(c, 1)]
  | (k, v) :: rest, c =>
    if k = c then (k, v + 1) :: rest else (k, v) :: bumpCategory rest c

/-- `dict.get(key, 0)` on the association list of category counts. -/
def getCount (counts : List (String × Nat)) (c : String) : Nat :=
  match counts.lookup c with
  | some v => v
  | none => 0

/-- The dataclass `GrammarAnalysis` (the Python field `matches` is a
reserved word in Lean and is called `matchList` here). -/
structure GrammarAnalysis where
  text : List Char
  matchList : List GrammarMatch
  total_errors : Nat
  categories_found : List (String × Nat)
  suggestions_count : Nat
  corrected_text : List Char
  deriving DecidableEq

/-- `LanguageToolClient.check_text`, given the raw matches returned by the
external checker: keep the matches passing the focus filter, convert each,
count categories in encounter order, and assemble the corrected text via
`_apply_corrections`. -/
def check_text (text : List Char) (toolMatches : List ToolMatch)
    (focus : Option (List String)) : GrammarAnalysis :=
  let kept := toolMatches.filter (keepMatch focus)
  let gms := kept.map (toGrammarMatch text)
  { text := text,
    matchList := gms,
    total_errors := gms.length,
    categories_found := (kept.map fun m => m.category).foldl bumpCategory [],
    suggestions_count := (gms.map fun m => m.suggestions.length).sum,
    corrected_text := apply_corrections text gms }

/-- `match.category in ["TYPOS", "GRAMMAR"]` (the critical bucket test in
`analyze_learning_text`). -/
def isCriticalCategory (c : String) : Bool := c = "TYPOS" || c = "GRAMMAR"

/-- `match.category in ["STYLE", "REDUNDANCY"]` (the style bucket test in
`analyze_learning_text`). -/
def isStyleCategory (c : String) : Bool := c = "STYLE" || c = "REDUNDANCY"

/-- `LanguageToolClient._generate_improvement_suggestions`. -/
def generate_improvement_suggestions (analysis : GrammarAnalysis) : List String :=
  let s1 := if getCount analysis.categories_found "TYPOS" > 2 then
    ["Überprüfen Sie die Rechtschreibung sorgfältiger."] else []
  let s2 := if getCount analysis.categories_found "GRAMMAR" > 1 then
    ["Achten Sie auf Grammatikregeln, besonders Kasuskongruenz."] else []
  let s3 := if getCount analysis.categories_found "PUNCTUATION" > 1 then
    ["Überprüfen Sie die Kommasetzung in zusammengesetzten Sätzen."] else []
  let all := s1 ++ s2 ++ s3
  if all.length = 0 then ["Gute Arbeit! Der Text ist grammatikalisch korrekt."] else all

/-- The dictionary returned by `analyze_learning_text`. The Python result
formats each bucket entry with `_format_error_for_learning`, a one-to-one
per-element reformatting; the buckets are kept here as the underlying
matches, in the same order. The three counts are the lengths reported under
the `analysis` key. -/
structure LearningTextAnalysis where
  text : List Char
  difficulty_level : String
  total_issues : Nat
  critical_count : Nat
  learning_count : Nat
  style_count : Nat
  critical_errors : List GrammarMatch
  learning_opportunities : List GrammarMatch
  style_suggestions : List GrammarMatch
  corrected_text : List Char
  improvement_suggestions : List String
  categories_summary : List (String × Nat)
  deriving DecidableEq

/-- `LanguageToolClient.analyze_learning_text`: run `check_text` with no
focus filter, then partition the matches by the if/elif/else chain —
critical for TYPOS/GRAMMAR, style for STYLE/REDUNDANCY (when not critical),
learning opportunities for everything else. -/
def analyze_learning_text (text : List Char) (toolMatches : List ToolMatch)
    (difficulty_level : String) : LearningTextAnalysis :=
  let analysis := check_text text toolMatches none
  let critical := analysis.matchList.filter fun m => isCriticalCategory m.category
  let style := analysis.matchList.filter fun m =>
    !isCriticalCategory m.category && isStyleCategory m.category
  let learning := analysis.matchList.filter fun m =>
    !isCriticalCategory m.category && !isStyleCategory m.category
  { text := text, difficulty_level := difficulty_level,
    total_issues := analysis.total_errors,
    critical_count := critical.length,
    learning_count := learning.length,
    style_count := style.length,
    critical_errors := critical,
    learning_opportunities := learning,
    style_suggestions := style,
    corrected_text := analysis.corrected_text,
    improvement_suggestions := generate_improvement_suggestions analysis,
    categories_summary := analysis.categories_found }

/-- `GermanLanguageAnalyzer._assess_text_quality`: the aggregate quality
label read off `grammar_analysis["analysis"]["total_issues"]`. -/
def assess_text_quality (grammar_analysis : LearningTextAnalysis) : String :=
  if grammar_analysis.total_issues = 0 then "Exzellent"
  else if grammar_analysis.total_issues ≤ 2 then "Gut"
  else if grammar_analysis.total_issues ≤ 5 then "Befriedigend"
  else "Verbesserungsbedürftig"

/-- Ordinal rank of the four quality labels, 0 the best (excellent) up to 3
the worst (needs improvement); used only to state monotonicity of the label
in the issue count. -/
def qualityRank (label : String) : Nat :=
  if label = "Exzellent" then 0
  else if label = "Gut" then 1
  else if label = "Befriedigend" then 2
  else 3

/-- The dictionary returned by `LeoLMClient._generate_text`: a success flag
with generated text, or a failure flag with the error detail (the soft
failure the pipeline absorbs). -/
structure GenerationResult where
  success : Bool
  generated_text : String
  error_detail : String
  deriving DecidableEq

/-- Mutable lifecycle state of `LanguageToolClient`: whether `self.tool`
holds a checker handle, and the `_is_initialized` flag. -/
structure LTClientState where
  has_tool : Bool
  is_initialized : Bool
  deriving DecidableEq

/-- `LanguageToolClient.__init__`: `self.tool = None`,
`self._is_initialized = False`. -/
def LTClientState.fresh : LTClientState :=
  { has_tool := false, is_initialized := false }

/-- `LanguageToolClient.initialize`, with the outcome of the external
`LanguageTool(**kwargs)` acquisition supplied as `acquireOk`: on success the
handle is stored and the flag set, returning `True`; on an acquisition
exception the handler logs and returns `False`, leaving the state as it
was. -/
def LTClientState.initialize_op (s : LTClientState) (acquireOk : Bool) :
    LTClientState × Bool :=
  if acquireOk then ({ has_tool := true, is_initialized := true }, true)
  else (s, false)

/-- `LanguageToolClient._ensure_initialized`:
`if not self._is_initialized or not self.tool: raise RuntimeError(...)`. -/
def LTClientState.ensure_initialized (s : LTClientState) : Except String Unit :=
  if !s.is_initialized || !s.has_tool then
    .error "LanguageTool not initialized. Call initialize() first."
  else .ok ()

/-- `LanguageToolClient.check_text` including its lifecycle guard: the
operation raises `RuntimeError` instead of running when the client is not
ready. -/
def LTClientState.check_text_op (s : LTClientState) (text : List Char)
    (toolMatches : List ToolMatch) (focus : Option (List String)) :
    Except String GrammarAnalysis := do
  let _ ← s.ensure_initialized
  pure (check_text text toolMatches focus)

/-- `LanguageToolClient.analyze_learning_text` including the lifecycle guard
of the `check_text` call it begins with. -/
def LTClientState.analyze_learning_text_op (s : LTClientState) (text : List Char)
    (toolMatches : List ToolMatch) (difficulty_level : String) :
    Except String LearningTextAnalysis := do
  let _ ← s.ensure_initialized
  pure (analyze_learning_text text toolMatches difficulty_level)

/-- Mutable lifecycle state of `LeoLMClient` (`_is_initialized`; the
tokenizer, model and pipeline handles are the external resource behind
it). -/
structure LeoLMState where
  is_initialized : Bool
  deriving DecidableEq

/-- `LeoLMClient.__init__`: `self._is_initialized = False`. -/
def LeoLMState.fresh : LeoLMState := { is_initialized := false }

/-- `LeoLMClient.initialize`, with the outcome of the external model load
supplied as `acquireOk`: failure is logged and returned as `False`, the
state left as it was. -/
def LeoLMState.initialize_op (s : LeoLMState) (acquireOk : Bool) :
    LeoLMState × Bool :=
  if acquireOk then ({ is_initialized := true }, true) else (s, false)

/-- `LeoLMClient._ensure_initialized`. -/
def LeoLMState.ensure_initialized (s : LeoLMState) : Except String Unit :=
  if !s.is_initialized then
    .error "LeoLM model not initialized. Call initialize() first."
  else .ok ()

/-- `LeoLMClient.generate_explanation`: lifecycle guard, then a prompt sent
to the external model, whose response is supplied as `outcome`. -/
def LeoLMState.generate_explanation (s : LeoLMState) (grammar_topic : String)
    (difficulty : String) (outcome : GenerationResult) :
    Except String GenerationResult := do
  let _ ← s.ensure_initialized
  pure outcome

/-- `LeoLMClient.generate_examples`: lifecycle guard, then delegation to the
external model. -/
def LeoLMState.generate_examples (s : LeoLMState) (grammar_topic : String)
    (count : Nat) (difficulty : String) (outcome : GenerationResult) :
    Except String GenerationResult := do
  let _ ← s.ensure_initialized
  pure outcome

/-- `LeoLMClient.generate_exercise`: lifecycle guard, then delegation to the
external model. -/
def LeoLMState.generate_exercise (s : LeoLMState) (grammar_topic : String)
    (exercise_type : String) (difficulty : String) (outcome : GenerationResult) :
    Except String GenerationResult := do
  let _ ← s.ensure_initialized
  pure outcome

/-- `LeoLMClient.analyze_text`: lifecycle guard, then delegation to the
external model. -/
def LeoLMState.analyze_text (s : LeoLMState) (text : List Char)
    (focus_areas : Option (List String)) (outcome : GenerationResult) :
    Except String GenerationResult := do
  let _ ← s.ensure_initialized
  pure outcome

/-- Exceptions the analyzer-level operations propagate: the `RuntimeError`
raised by the lifecycle guards, and the `AttributeError` Python raises when
`analyze_text_comprehensive` evaluates `self.leolm_client.analyze_text(...)`
while `self.leolm_client` is `None`. The surrounding handler logs and
re-raises, so both reach the caller unchanged. -/
inductive PyError
  | runtimeError (msg : String)
  | attributeError (msg : String)
  deriving DecidableEq

/-- Mutable state of `GermanLanguageAnalyzer`: the optional LeoLM client
(created in `__init__` exactly when `config.leolm_config` is set), the
LanguageTool client, and `_is_initialized`. -/
structure AnalyzerState where
  leolm_client : Option LeoLMState
  languagetool_client : LTClientState
  is_initialized : Bool
  deriving DecidableEq

/-- `GermanLanguageAnalyzer.__init__`: a LeoLM client only when a LeoLM
config is given, always a LanguageTool client, starting uninitialized. -/
def AnalyzerState.fresh (hasLeolmConfig : Bool) : AnalyzerState :=
  { leolm_client := if hasLeolmConfig then some LeoLMState.fresh else none,
    languagetool_client := LTClientState.fresh,
    is_initialized := false }

/-- `GermanLanguageAnalyzer.initialize`, with the outcomes of the two
underlying acquisitions supplied: LanguageTool first, then LeoLM when
configured. Any failure returns `False` with `_is_initialized` not set. -/
def AnalyzerState.initialize_op (s : AnalyzerState) (ltAcquireOk leolmAcquireOk : Bool) :
    AnalyzerState × Bool :=
  let ltRes := s.languagetool_client.initialize_op ltAcquireOk
  let s1 : AnalyzerState := { s with languagetool_client := ltRes.1 }
  if !ltRes.2 then (s1, false)
  else
    match s1.leolm_client with
    | some leo =>
      let leoRes := leo.initialize_op leolmAcquireOk
      let s2 : AnalyzerState := { s1 with leolm_client := some leoRes.1 }
      if !leoRes.2 then (s2, false)
      else ({ s2 with is_initialized := true }, true)
    | none => ({ s1 with is_initialized := true }, true)

/-- `GermanLanguageAnalyzer._ensure_initialized`. -/
def AnalyzerState.ensure_initialized (s : AnalyzerState) : Except PyError Unit :=
  if !s.is_initialized then
    .error (.runtimeError
      "German Language Analyzer not initialized. Call initialize() first.")
  else .ok ()

/-- The German category names table `self.grammar_categories` from
`LanguageToolClient.__init__`, read with `.get(category, category)`. -/
def category_german (c : String) : String :=
  if c = "TYPOS" then "Rechtschreibfehler"
  else if c = "GRAMMAR" then "Grammatikfehler"
  else if c = "PUNCTUATION" then "Zeichensetzung"
  else if c = "STYLE" then "Stil und Ausdruck"
  else if c = "CONFUSED_WORDS" then "Verwechselte Wörter"
  else if c = "REDUNDANCY" then "Redundanz"
  else if c = "GENDER_NEUTRALITY" then "Geschlechtergerechte Sprache"
  else if c = "COLLOQUIALISMS" then "Umgangssprache"
  else if c = "REGIONALISMS" then "Regionalismen"
  else c

/-- `GermanLanguageAnalyzer._generate_error_explanations`: one explanation
request per critical error among the first three whose rule id is truthy
(non-empty), attached one-to-one to its error in order. The external
response of the model per requested topic is supplied by the oracle `gen`. -/
def generate_error_explanations (gen : String → GenerationResult)
    (grammar_analysis : LearningTextAnalysis) :
    List (GrammarMatch × GenerationResult) :=
  ((grammar_analysis.critical_errors.take 3).filter fun e => e.rule_id ≠ "").map
    fun e => (e, gen (category_german e.category))

/-- `GermanLanguageAnalyzer._generate_grammar_examples`: for the first two
summary categories that are GRAMMAR or CASE_AGREEMENT, request examples and
extend the list with the newline-split generated text when successful. -/
def generate_grammar_examples (gen : String → GenerationResult)
    (grammar_analysis : LearningTextAnalysis) : List String :=
  (((grammar_analysis.categories_summary.map Prod.fst).take 2).filter fun c =>
      c = "GRAMMAR" || c = "CASE_AGREEMENT").foldl
    (fun acc c =>
      let r := gen c
      if r.success then acc ++ r.generated_text.splitOn "\n" else acc) []

/-- `GermanLanguageAnalyzer._generate_practice_exercises`: one fill-blank
exercise per first two summary categories, kept when generation
succeeds. -/
def generate_practice_exercises (gen : String → GenerationResult)
    (grammar_analysis : LearningTextAnalysis) :
    List (String × GenerationResult) :=
  ((grammar_analysis.categories_summary.map Prod.fst).take 2).foldl
    (fun acc c =>
      let r := gen c
      if r.success then acc ++ [(c, r)] else acc) []

/-- `GermanLanguageAnalyzer._generate_learning_recommendations`. -/
def generate_learning_recommendations
    (grammar_analysis : LearningTextAnalysis) : List String :=
  let error_count := grammar_analysis.total_issues
  let base :=
    if error_count = 0 then
      ["Ausgezeichnet! Ihr Text ist grammatikalisch korrekt.",
       "Versuchen Sie komplexere Satzstrukturen zu verwenden."]
    else if error_count ≤ 2 then
      ["Gute Arbeit! Nur wenige kleine Fehler.",
       "Achten Sie auf die Details bei der Kasuskongruenz."]
    else
      ["Konzentrieren Sie sich auf die Grundgrammatik.",
       "Üben Sie regelmäßig mit einfacheren Texten."]
  let r1 := if (grammar_analysis.categories_summary.lookup "TYPOS").isSome then
    ["Verwenden Sie eine Rechtschreibprüfung."] else []
  let r2 := if (grammar_analysis.categories_summary.lookup "GRAMMAR").isSome then
    ["Wiederholen Sie die deutschen Kasusregeln."] else []
  base ++ r1 ++ r2

/-- The dataclass `ComprehensiveAnalysis`; the loosely-typed dictionaries of
the Python version are the corresponding structures here. -/
structure ComprehensiveAnalysis where
  original_text : List Char
  grammar_analysis : LearningTextAnalysis
  llm_analysis : Option GenerationResult
  explanations : List (GrammarMatch × GenerationResult)
  examples : List String
  exercises : List (String × GenerationResult)
  learning_recommendations : List String
  deriving DecidableEq

/-- `GermanLanguageAnalyzer.analyze_text_comprehensive`, with the raw
checker output and the responses of the external model supplied (`gen` answers
the per-topic generation calls, `llmAnalysisResult` the initial
`analyze_text` call). When the grammar analysis reports issues the code
unconditionally evaluates `self.leolm_client.analyze_text(...)`; with no
LeoLM client configured this attribute access on `None` raises
`AttributeError`, which the surrounding handler logs and re-raises. -/
def AnalyzerState.analyze_text_comprehensive (s : AnalyzerState)
    (text : List Char) (toolMatches : List ToolMatch)
    (difficulty_level : String)
    (generate_explanations generate_examples generate_exercises : Bool)
    (gen : String → GenerationResult) (llmAnalysisResult : GenerationResult) :
    Except PyError ComprehensiveAnalysis := do
  let _ ← s.ensure_initialized
  match s.languagetool_client.analyze_learning_text_op text toolMatches
      difficulty_level with
  | .error msg => .error (.runtimeError msg)
  | .ok grammar_analysis =>
    if grammar_analysis.total_issues > 0 then
      match s.leolm_client with
      | none =>
        .error (.attributeError "NoneType object has no attribute analyze_text")
      | some leo =>
        match leo.analyze_text text
            (some (grammar_analysis.categories_summary.map Prod.fst))
            llmAnalysisResult with
        | .error msg => .error (.runtimeError msg)
        | .ok llm =>
          pure { original_text := text, grammar_analysis := grammar_analysis,
                 llm_analysis := some llm,
                 explanations := if generate_explanations then
                   GermanLLM.generate_error_explanations gen grammar_analysis else [],
                 examples := if generate_examples then
                   GermanLLM.generate_grammar_examples gen grammar_analysis else [],
                 exercises := if generate_exercises then
                   GermanLLM.generate_practice_exercises gen grammar_analysis else [],
                 learning_recommendations :=
                   GermanLLM.generate_learning_recommendations grammar_analysis }
    else
      pure { original_text := text, grammar_analysis := grammar_analysis,
             llm_analysis := none, explanations := [], examples := [],
             exercises := [],
             learning_recommendations :=
               GermanLLM.generate_learning_recommendations grammar_analysis }

/-- The dictionary returned by `GermanLanguageAnalyzer.quick_check`. -/
structure QuickCheckResult where
  original_text : List Char
  has_errors : Bool
  error_count : Nat
  corrected_text : List Char
  main_issues : List String
  quick_suggestions : List (List Char)
  deriving DecidableEq

/-- `GermanLanguageAnalyzer.quick_check`: lifecycle guard, one `check_text`
call, and a small summary dictionary (first three category keys, first
suggestion of each of the first three matches with a fallback message). -/
def AnalyzerState.quick_check (s : AnalyzerState) (text : List Char)
    (toolMatches : List ToolMatch) : Except PyError QuickCheckResult := do
  let _ ← s.ensure_initialized
  match s.languagetool_client.check_text_op text toolMatches none with
  | .error msg => .error (.runtimeError msg)
  | .ok ga =>
    pure { original_text := text,
           has_errors := ga.total_errors > 0,
           error_count := ga.total_errors,
           corrected_text := ga.corrected_text,
           main_issues := (ga.categories_found.map Prod.fst).take 3,
           quick_suggestions := (ga.matchList.take 3).map fun m =>
             match m.suggestions with
             | [] => "Keine Vorschläge".toList
             | sHead :: _ => sHead }

/-- The dataclass `LeoLMConfig` from `leolm_client.py` (float fields kept as
exact rationals). -/
structure LeoLMConfig where
  model_name : String
  device : String
  max_length : Nat
  temperature : ℚ
  top_p : ℚ
  do_sample : Bool
  cache_dir : Option String
  deriving DecidableEq

/-- The dataclass `LanguageToolConfig` from `languagetool_client.py`. -/
structure LanguageToolConfig where
  language : String
  motherTongue : Option String
  enabled_rules : Option (List String)
  disabled_rules : Option (List String)
  enabled_categories : Option (List String)
  disabled_categories : Option (List String)
  deriving DecidableEq

/-- The dataclass `GermanAnalyzerConfig` from `german_analyzer.py`. -/
structure GermanAnalyzerConfig where
  leolm_config : Option LeoLMConfig
  languagetool_config : Option LanguageToolConfig
  auto_correct : Bool
  provide_examples : Bool
  generate_exercises : Bool
  difficulty_level : String
  deriving DecidableEq

/-- `LanguageToolConfig(language="de-DE")` with the remaining dataclass
defaults. -/
def ltConfigDeDE : LanguageToolConfig :=
  { language := "de-DE", motherTongue := none, enabled_rules := none,
    disabled_rules := none, enabled_categories := none,
    disabled_categories := none }

/-- The `"grammar-only"` preset in `config.CONFIGS`: no LLM, just grammar
checking. -/
def grammarOnlyConfig : GermanAnalyzerConfig :=
  { leolm_config := none, languagetool_config := some ltConfigDeDE,
    auto_correct := false, provide_examples := false,
    generate_exercises := false, difficulty_level := "intermediate" }

/-- The LeoLM settings of the `"fast"` preset. -/
def fastLeoLMConfig : LeoLMConfig :=
  { model_name := "microsoft/DialoGPT-medium", device := "cpu",
    max_length := 512, temperature := 0.7, top_p := 0.9, do_sample := true,
    cache_dir := none }

/-- The `"fast"` preset in `config.CONFIGS`: the smaller DialoGPT model. -/
def fastConfig : GermanAnalyzerConfig :=
  { leolm_config := some fastLeoLMConfig,
    languagetool_config := some ltConfigDeDE,
    auto_correct := false, provide_examples := false,
    generate_exercises := false, difficulty_level := "intermediate" }

/-- The LeoLM settings of the `"default"` preset. -/
def defaultLeoLMConfig : LeoLMConfig :=
  { model_name := "LeoLM/leo-hessianai-7b-chat", device := "cpu",
    max_length := 1024, temperature := 0.7, top_p := 0.9, do_sample := true,
    cache_dir := none }

/-- The `"default"` preset in `config.CONFIGS`: the full LeoLM chat
model. -/
def defaultConfig : GermanAnalyzerConfig :=
  { leolm_config := some defaultLeoLMConfig,
    languagetool_config := some ltConfigDeDE,
    auto_correct := false, provide_examples := true,
    generate_exercises := false, difficulty_level := "intermediate" }

/-- The `CONFIGS` dictionary of `config.py`, as an insertion-ordered
association list. -/
def CONFIGS : List (String × GermanAnalyzerConfig) :=
  [("grammar-only", grammarOnlyConfig), ("fast", fastConfig),
   ("default", defaultConfig)]

/-- `config.get_config`:
`if name not in CONFIGS: return CONFIGS["default"]` else `CONFIGS[name]`. -/
def get_config (name : String) : GermanAnalyzerConfig :=
  match CONFIGS.lookup name with
  | none => defaultConfig
  | some c => c

/-- A model response standing for a generation that failed (used to
instantiate the external-response parameters at concrete inputs). -/
def failedGen : GenerationResult :=
  { success := false, generated_text := "", error_detail := "generation failed" }

theorem applyMatch_of_no_suggestions (c : List Char) (m : GrammarMatch)
    (h : m.suggestions = []) : applyMatch c m = c := by
  unfold applyMatch
  rw [h]

theorem foldl_applyMatch_filter (l : List GrammarMatch) :
    ∀ c : List Char, l.foldl applyMatch c
      = (l.filter fun m => !m.suggestions.isEmpty).foldl applyMatch c := by
  induction l with
  | nil => intro c; rfl
  | cons x xs ih =>
    intro c
    by_cases hx : x.suggestions = []
    · rw [List.foldl_cons, applyMatch_of_no_suggestions c x hx, ih c,
        List.filter_cons_of_neg (by simp [hx])]
    · rw [List.foldl_cons, ih (applyMatch c x),
        List.filter_cons_of_pos (by simp [hx]), List.foldl_cons]

theorem mem_insertDesc (z x : GrammarMatch) (l : List GrammarMatch) :
    z ∈ insertDesc x l ↔ z = x ∨ z ∈ l := by
  induction l with
  | nil => simp [insertDesc]
  | cons y ys ih =>
    by_cases h : y.offset ≤ x.offset
    · simp [insertDesc, h]
    · simp only [insertDesc, if_neg h, List.mem_cons, ih]
      tauto

theorem insertDesc_cons_of_le (x : GrammarMatch) (l : List GrammarMatch)
    (h : ∀ y ∈ l, y.offset ≤ x.offset) : insertDesc x l = x :: l := by
  cases l with
  | nil => rfl
  | cons y ys => simp [insertDesc, h y (by simp)]

theorem pairwise_insertDesc (x : GrammarMatch) (l : List GrammarMatch)
    (hl : l.Pairwise (fun a b => b.offset ≤ a.offset)) :
    (insertDesc x l).Pairwise (fun a b => b.offset ≤ a.offset) := by
  induction l with
  | nil => simp [insertDesc]
  | cons y ys ih =>
    rcases List.pairwise_cons.mp hl with ⟨hy, hys⟩
    by_cases h : y.offset ≤ x.offset
    · rw [insertDesc, if_pos h]
      refine List.pairwise_cons.mpr ⟨?_, hl⟩
      intro z hz
      rcases List.mem_cons.mp hz with hz | hz
      · subst hz; exact h
      · exact Nat.le_trans (hy z hz) h
    · rw [insertDesc, if_neg h]
      refine List.pairwise_cons.mpr ⟨?_, ih hys⟩
      intro z hz
      rcases (mem_insertDesc z x ys).mp hz with hz | hz
      · subst hz; exact Nat.le_of_lt (Nat.lt_of_not_le h)
      · exact hy z hz

theorem sortByOffsetDesc_pairwise (ms : List GrammarMatch) :
    (sortByOffsetDesc ms).Pairwise (fun a b => b.offset ≤ a.offset) := by
  induction ms with
  | nil => simp [sortByOffsetDesc]
  | cons a l ih => exact pairwise_insertDesc a (sortByOffsetDesc l) ih

theorem filter_insertDesc (p : GrammarMatch → Bool) (x : GrammarMatch)
    (l : List GrammarMatch) (hl : l.Pairwise (fun a b => b.offset ≤ a.offset)) :
    (insertDesc x l).filter p
      = if p x then insertDesc x (l.filter p) else l.filter p := by
  induction l with
  | nil =>
    by_cases hp : p x <;> simp [insertDesc, hp]
  | cons y ys ih =>
    rcases List.pairwise_cons.mp hl with ⟨hy, hys⟩
    by_cases hxy : y.offset ≤ x.offset
    · rw [insertDesc, if_pos hxy]
      by_cases hp : p x
      · rw [if_pos hp, List.filter_cons_of_pos hp,
          insertDesc_cons_of_le x ((y :: ys).filter p)]
        intro z hz
        rcases List.mem_cons.mp (List.mem_of_mem_filter hz) with hz | hz
        · subst hz; exact hxy
        · exact Nat.le_trans (hy z hz) hxy
      · rw [if_neg hp, List.filter_cons_of_neg hp]
    · rw [insertDesc, if_neg hxy]
      by_cases hpy : p y
      · rw [List.filter_cons_of_pos hpy, List.filter_cons_of_pos hpy, ih hys]
        by_cases hp : p x
        · rw [if_pos hp, if_pos hp, insertDesc, if_neg hxy]
        · rw [if_neg hp, if_neg hp]
      · rw [List.filter_cons_of_neg hpy, List.filter_cons_of_neg hpy, ih hys]

theorem filter_sortByOffsetDesc (p : GrammarMatch → Bool) (ms : List GrammarMatch) :
    (sortByOffsetDesc ms).filter p = sortByOffsetDesc (ms.filter p) := by
  induction ms with
  | nil => rfl
  | cons a l ih =>
    show (insertDesc a (sortByOffsetDesc l)).filter p
      = sortByOffsetDesc ((a :: l).filter p)
    rw [filter_insertDesc p a _ (sortByOffsetDesc_pairwise l)]
    by_cases hp : p a
    · rw [if_pos hp, List.filter_cons_of_pos hp, ih]; rfl
    · rw [if_neg hp, List.filter_cons_of_neg hp, ih]

/-- C1 (counterexample): on the literal spans of the claim — offset 8
length 5 with suggestion `geht`, offset 16 length 3 with suggestion `dem` —
the assembler applied to `Der Mann gehen zu der Haus.` returns
`Der Manngehtn zdemer Haus.`, not the claimed `Der Mann geht zu dem Haus.`
(the stated offsets point at the space before `gehen` and at the `u` of
`zu`, one position left of the intended words). -/
theorem C1_stated_offsets_refuted :
    apply_corrections ("Der Mann gehen zu der Haus.".toList)
      [mkMatch 8 5 "GRAMMAR" ["geht".toList], mkMatch 16 3 "CASE" ["dem".toList]]
      = "Der Manngehtn zdemer Haus.".toList ∧
    "Der Manngehtn zdemer Haus.".toList ≠ "Der Mann geht zu dem Haus.".toList := by
  constructor
  · rfl
  · decide

/-- C1 (amended): with the spans at the offsets the words actually occupy —
offset 9 length 5 (`gehen` → `geht`) and offset 18 length 3 (`der` →
`dem`) — the assembler returns exactly `Der Mann geht zu dem Haus.`. -/
theorem C1_scenario_corrected_offsets :
    apply_corrections ("Der Mann gehen zu der Haus.".toList)
      [mkMatch 9 5 "GRAMMAR" ["geht".toList], mkMatch 18 3 "CASE" ["dem".toList]]
      = "Der Mann geht zu dem Haus.".toList := by
  rfl

/-- C3 (counterexample): a span reaching past the end of the text (offset 2,
length 5 on the three-character text `abc`) raises nothing; the assembler
returns the corrected string `abXY`, silently truncating the covered region
at the end of the text, exactly as Python slicing does. -/
theorem C3_out_of_bounds_not_an_error :
    apply_corrections ("abc".toList) [mkMatch 2 5 "TYPOS" ["XY".toList]]
      = "abXY".toList := by
  rfl

/-- C3 (amended): for every text and every single span whose end
`offset + length` reaches past the text, the assembler does not fail: it
silently truncates, returning the prefix before the span followed by the
suggestion (the out-of-range tail of the slice is empty). -/
theorem C3_out_of_bounds_truncates (text : List Char) (m : GrammarMatch)
    (s : List Char) (rest : List (List Char))
    (hs : m.suggestions = s :: rest)
    (hb : text.length ≤ m.offset + m.length) :
    apply_corrections text [m] = text.take m.offset ++ s := by
  have hsort : sortByOffsetDesc [m] = [m] := rfl
  show apply_corrections text [m] = text.take m.offset ++ s
  unfold apply_corrections
  rw [hsort]
  simp only [List.isEmpty_cons, List.foldl_cons, List.foldl_nil]
  unfold applyMatch
  rw [hs, List.drop_eq_nil_of_le hb]
  simp

/-- C3 (witness for the amended theorem): the concrete out-of-bounds span of
the counterexample, discharged through the amended theorem. -/
theorem C3_out_of_bounds_truncates_witness :
    apply_corrections ("abc".toList) [mkMatch 2 5 "TYPOS" ["XY".toList]]
      = "abc".toList.take 2 ++ "XY".toList :=
  C3_out_of_bounds_truncates ("abc".toList) (mkMatch 2 5 "TYPOS" ["XY".toList])
    ("XY".toList) [] rfl (by decide)

/-- C4 (counterexample): on `abcde` with the overlapping spans offset 2
length 2 (suggestion `XX`) and offset 1 length 2 (suggestion `Q`), the
assembler returns `aQXe`: the lower-offset span is not skipped — its
substitution is applied to the already-modified string — whereas the
claimed skip policy would return `abXXe`. -/
theorem C4_overlap_not_skipped :
    apply_corrections ("abcde".toList)
      [mkMatch 2 2 "GRAMMAR" ["XX".toList], mkMatch 1 2 "GRAMMAR" ["Q".toList]]
      = "aQXe".toList ∧
    "aQXe".toList ≠ "abXXe".toList := by
  constructor
  · rfl
  · decide

/-- C4 (amended): the assembler performs no overlap detection and no
logging: given two spans with suggestions whose regions overlap, it applies
the higher-offset replacement first and then unconditionally applies the
lower-offset replacement to the already-modified string. -/
theorem C4_overlap_applies_both (text : List Char) (a b : GrammarMatch)
    (hlt : b.offset < a.offset)
    (hover : a.offset < b.offset + b.length)
    (ha : a.suggestions ≠ []) (hb : b.suggestions ≠ []) :
    apply_corrections text [b, a] = applyMatch (applyMatch text a) b := by
  have hsort : sortByOffsetDesc [b, a] = [a, b] := by
    show insertDesc b (insertDesc a []) = [a, b]
    show insertDesc b [a] = [a, b]
    unfold insertDesc
    rw [if_neg (Nat.not_le.mpr hlt)]
    rfl
  unfold apply_corrections
  rw [hsort]
  simp only [List.isEmpty_cons, List.foldl_cons, List.foldl_nil]
  rfl

/-- C4 (witness for the amended theorem): the concrete overlapping spans of
the counterexample, discharged through the amended theorem. -/
theorem C4_overlap_applies_both_witness :
    apply_corrections ("abcde".toList)
      [mkMatch 1 2 "GRAMMAR" ["Q".toList], mkMatch 2 2 "GRAMMAR" ["XX".toList]]
      = applyMatch (applyMatch ("abcde".toList) (mkMatch 2 2 "GRAMMAR" ["XX".toList]))
          (mkMatch 1 2 "GRAMMAR" ["Q".toList]) :=
  C4_overlap_applies_both ("abcde".toList)
    (mkMatch 2 2 "GRAMMAR" ["XX".toList]) (mkMatch 1 2 "GRAMMAR" ["Q".toList])
    (by decide) (by decide) (by decide) (by decide)

/-- C5: the assembler is the identity on an empty span list, and spans whose
suggestions list is empty leave their covered substring untouched — the
result is unchanged when all such spans are removed from the input. -/
theorem C5_empty_and_suggestionless_identity :
    (∀ text : List Char, apply_corrections text [] = text) ∧
    (∀ (text : List Char) (ms : List GrammarMatch),
      apply_corrections text ms
        = apply_corrections text (ms.filter fun m => !m.suggestions.isEmpty)) := by
  constructor
  · intro text; rfl
  · intro text ms
    rcases List.eq_nil_or_concat ms with hms | _
    · subst hms; rfl
    have key : (sortByOffsetDesc ms).foldl applyMatch text
        = (sortByOffsetDesc (ms.filter fun m => !m.suggestions.isEmpty)).foldl
            applyMatch text := by
      rw [foldl_applyMatch_filter (sortByOffsetDesc ms) text,
        filter_sortByOffsetDesc]
    unfold apply_corrections
    by_cases h1 : ms.isEmpty
    · rw [List.isEmpty_iff.mp h1]
      simp
    by_cases h2 : (ms.filter fun m => !m.suggestions.isEmpty).isEmpty
    · rw [if_neg (by simp [h1]), if_pos h2, key, List.isEmpty_iff.mp h2]
      rfl
    · rw [if_neg (by simp [h1]), if_neg (by simp [h2]), key]

theorem bumpCategory_sum (m : List (String × Nat)) (c : String) :
    ((bumpCategory m c).map Prod.snd).sum = ((m.map Prod.snd).sum) + 1 := by
  induction m with
  | nil => rfl
  | cons kv rest ih =>
    obtain ⟨k, v⟩ := kv
    by_cases h : k = c
    · simp [bumpCategory, h]
      omega
    · simp [bumpCategory, h, ih]
      omega

theorem foldl_bumpCategory_sum (cats : List String) :
    ∀ m0 : List (String × Nat),
      (((cats.foldl bumpCategory m0)).map Prod.snd).sum
        = (m0.map Prod.snd).sum + cats.length := by
  induction cats with
  | nil => intro m0; simp
  | cons c cs ih =>
    intro m0
    rw [List.foldl_cons, ih (bumpCategory m0 c), bumpCategory_sum]
    simp
    omega

/-- C9: every `GrammarAnalysis` produced by `check_text` satisfies the
invariants: `total_errors` is the number of matches, the category counts
sum to `total_errors`, and every match carries at most five suggestions
(the replacement list is truncated to the first five). -/
theorem C9_check_text_invariants (text : List Char) (toolMatches : List ToolMatch)
    (focus : Option (List String)) :
    (check_text text toolMatches focus).total_errors
        = (check_text text toolMatches focus).matchList.length ∧
    ((check_text text toolMatches focus).categories_found.map Prod.snd).sum
        = (check_text text toolMatches focus).total_errors ∧
    ∀ m ∈ (check_text text toolMatches focus).matchList,
      m.suggestions.length ≤ 5 := by
  refine ⟨rfl, ?_, ?_⟩
  · show ((((toolMatches.filter (keepMatch focus)).map fun m => m.category).foldl
        bumpCategory []).map Prod.snd).sum = _
    rw [foldl_bumpCategory_sum]
    show 0 + ((toolMatches.filter (keepMatch focus)).map fun m => m.category).length
      = ((toolMatches.filter (keepMatch focus)).map (toGrammarMatch text)).length
    simp
  · intro m hm
    have : ∃ tm ∈ toolMatches.filter (keepMatch focus), toGrammarMatch text tm = m :=
      List.mem_map.mp hm
    obtain ⟨tm, _, rfl⟩ := this
    show (tm.replacements.take 5).length ≤ 5
    exact List.length_take_le 5 _

/-- C9 (witness): the invariants instantiated on a concrete check of
`Der Mann gehen zu der Haus.` with one raw checker match, membership
discharged by evaluation. -/
theorem C9_check_text_invariants_witness :
    ((check_text ("Der Mann gehen zu der Haus.".toList)
        [⟨9, 5, "AGREEMENT_ERRORS", "GRAMMAR", "Kongruenzfehler",
          ["geht".toList, "gehe".toList], "", none⟩] none).categories_found.map
            Prod.snd).sum
      = (check_text ("Der Mann gehen zu der Haus.".toList)
          [⟨9, 5, "AGREEMENT_ERRORS", "GRAMMAR", "Kongruenzfehler",
            ["geht".toList, "gehe".toList], "", none⟩] none).total_errors ∧
    (toGrammarMatch ("Der Mann gehen zu der Haus.".toList)
        ⟨9, 5, "AGREEMENT_ERRORS", "GRAMMAR", "Kongruenzfehler",
          ["geht".toList, "gehe".toList], "", none⟩).suggestions.length ≤ 5 :=
  ⟨(C9_check_text_invariants ("Der Mann gehen zu der Haus.".toList)
      [⟨9, 5, "AGREEMENT_ERRORS", "GRAMMAR", "Kongruenzfehler",
        ["geht".toList, "gehe".toList], "", none⟩] none).2.1,
   (C9_check_text_invariants ("Der Mann gehen zu der Haus.".toList)
      [⟨9, 5, "AGREEMENT_ERRORS", "GRAMMAR", "Kongruenzfehler",
        ["geht".toList, "gehe".toList], "", none⟩] none).2.2 _ (by decide)⟩

theorem three_bucket_length (l : List GrammarMatch) :
    (l.filter fun m => isCriticalCategory m.category).length
      + (l.filter fun m =>
          !isCriticalCategory m.category && isStyleCategory m.category).length
      + (l.filter fun m =>
          !isCriticalCategory m.category && !isStyleCategory m.category).length
      = l.length := by
  induction l with
  | nil => rfl
  | cons x xs ih =>
    by_cases h1 : isCriticalCategory x.category <;>
      by_cases h2 : isStyleCategory x.category <;>
        simp [List.filter_cons, h1, h2] <;> omega

/-- C6: the learning-feedback partition is total and exclusive — the three
per-bucket counts sum to the total span count, and a match lands in the
critical bucket exactly when its category is TYPOS or GRAMMAR, in the style
bucket exactly when it is STYLE or REDUNDANCY, and otherwise (any unmapped
category included) in the learning-opportunities bucket. -/
theorem C6_bucket_partition (text : List Char) (toolMatches : List ToolMatch)
    (difficulty_level : String) :
    (analyze_learning_text text toolMatches difficulty_level).critical_count
      + (analyze_learning_text text toolMatches difficulty_level).style_count
      + (analyze_learning_text text toolMatches difficulty_level).learning_count
      = (analyze_learning_text text toolMatches difficulty_level).total_issues ∧
    ∀ m ∈ (check_text text toolMatches none).matchList,
      (m ∈ (analyze_learning_text text toolMatches difficulty_level).critical_errors
          ↔ isCriticalCategory m.category = true) ∧
      (m ∈ (analyze_learning_text text toolMatches difficulty_level).style_suggestions
          ↔ (isCriticalCategory m.category = false ∧
             isStyleCategory m.category = true)) ∧
      (m ∈ (analyze_learning_text text toolMatches
              difficulty_level).learning_opportunities
          ↔ (isCriticalCategory m.category = false ∧
             isStyleCategory m.category = false)) := by
  constructor
  · show ((check_text text toolMatches none).matchList.filter fun m =>
        isCriticalCategory m.category).length
      + ((check_text text toolMatches none).matchList.filter fun m =>
          !isCriticalCategory m.category && isStyleCategory m.category).length
      + ((check_text text toolMatches none).matchList.filter fun m =>
          !isCriticalCategory m.category && !isStyleCategory m.category).length
      = _
    rw [three_bucket_length]
    rfl
  · intro m hm
    refine ⟨?_, ?_, ?_⟩
    · show m ∈ (check_text text toolMatches none).matchList.filter
        (fun m => isCriticalCategory m.category) ↔ _
      rw [List.mem_filter]
      simp [hm]
    · show m ∈ (check_text text toolMatches none).matchList.filter
        (fun m => !isCriticalCategory m.category && isStyleCategory m.category) ↔ _
      rw [List.mem_filter]
      simp [hm]
    · show m ∈ (check_text text toolMatches none).matchList.filter
        (fun m => !isCriticalCategory m.category && !isStyleCategory m.category) ↔ _
      rw [List.mem_filter]
      simp [hm]

/-- C6 (witness): the partition instantiated on a concrete analysis holding
one GRAMMAR match, its membership in the critical bucket discharged by
evaluation through the theorem. -/
theorem C6_bucket_partition_witness :
    (analyze_learning_text ("Der Mann gehen zu der Haus.".toList)
        [⟨9, 5, "AGREEMENT_ERRORS", "GRAMMAR", "Kongruenzfehler",
          ["geht".toList], "", none⟩] "intermediate").critical_count
      + (analyze_learning_text ("Der Mann gehen zu der Haus.".toList)
          [⟨9, 5, "AGREEMENT_ERRORS", "GRAMMAR", "Kongruenzfehler",
            ["geht".toList], "", none⟩] "intermediate").style_count
      + (analyze_learning_text ("Der Mann gehen zu der Haus.".toList)
          [⟨9, 5, "AGREEMENT_ERRORS", "GRAMMAR", "Kongruenzfehler",
            ["geht".toList], "", none⟩] "intermediate").learning_count
      = (analyze_learning_text ("Der Mann gehen zu der Haus.".toList)
          [⟨9, 5, "AGREEMENT_ERRORS", "GRAMMAR", "Kongruenzfehler",
            ["geht".toList], "", none⟩] "intermediate").total_issues ∧
    (toGrammarMatch ("Der Mann gehen zu der Haus.".toList)
        ⟨9, 5, "AGREEMENT_ERRORS", "GRAMMAR", "Kongruenzfehler",
          ["geht".toList], "", none⟩
      ∈ (analyze_learning_text ("Der Mann gehen zu der Haus.".toList)
          [⟨9, 5, "AGREEMENT_ERRORS", "GRAMMAR", "Kongruenzfehler",
            ["geht".toList], "", none⟩] "intermediate").critical_errors
      ↔ isCriticalCategory "GRAMMAR" = true) :=
  ⟨(C6_bucket_partition ("Der Mann gehen zu der Haus.".toList)
      [⟨9, 5, "AGREEMENT_ERRORS", "GRAMMAR", "Kongruenzfehler",
        ["geht".toList], "", none⟩] "intermediate").1,
   ((C6_bucket_partition ("Der Mann gehen zu der Haus.".toList)
      [⟨9, 5, "AGREEMENT_ERRORS", "GRAMMAR", "Kongruenzfehler",
        ["geht".toList], "", none⟩] "intermediate").2 _ (by decide)).1⟩

theorem qualityRank_assess (ga : LearningTextAnalysis) :
    qualityRank (assess_text_quality ga)
      = if ga.total_issues = 0 then 0
        else if ga.total_issues ≤ 2 then 1
        else if ga.total_issues ≤ 5 then 2 else 3 := by
  unfold assess_text_quality
  split_ifs <;> rfl

/-- C7: the aggregate quality label follows the fixed thresholds — zero
issues map to `Exzellent`, one or two to `Gut`, three to five to
`Befriedigend`, more than five to `Verbesserungsbedürftig` — and the label
is monotone: a strictly smaller issue count never receives a worse label on
the four-step ordinal scale. -/
theorem C7_quality_thresholds_and_monotone :
    (∀ ga : LearningTextAnalysis,
      (ga.total_issues = 0 → assess_text_quality ga = "Exzellent") ∧
      (1 ≤ ga.total_issues → ga.total_issues ≤ 2 →
        assess_text_quality ga = "Gut") ∧
      (3 ≤ ga.total_issues → ga.total_issues ≤ 5 →
        assess_text_quality ga = "Befriedigend") ∧
      (5 < ga.total_issues →
        assess_text_quality ga = "Verbesserungsbedürftig")) ∧
    (∀ ga1 ga2 : LearningTextAnalysis,
      ga1.total_issues < ga2.total_issues →
        qualityRank (assess_text_quality ga1)
          ≤ qualityRank (assess_text_quality ga2)) := by
  constructor
  · intro ga
    refine ⟨?_, ?_, ?_, ?_⟩
    · intro h
      unfold assess_text_quality
      rw [if_pos h]
    · intro h1 h2
      unfold assess_text_quality
      rw [if_neg (by omega), if_pos h2]
    · intro h1 h2
      unfold assess_text_quality
      rw [if_neg (by omega), if_neg (by omega), if_pos h2]
    · intro h
      unfold assess_text_quality
      rw [if_neg (by omega), if_neg (by omega), if_neg (by omega)]
  · intro ga1 ga2 h
    rw [qualityRank_assess, qualityRank_assess]
    split_ifs <;> omega

/-- C7 (witness): the thresholds and monotonicity instantiated on concrete
analyses with zero and one issue respectively. -/
theorem C7_quality_witness :
    assess_text_quality (analyze_learning_text [] [] "intermediate")
      = "Exzellent" ∧
    qualityRank (assess_text_quality (analyze_learning_text [] [] "intermediate"))
      ≤ qualityRank (assess_text_quality (analyze_learning_text
          ("Der Mann gehen zu der Haus.".toList)
          [⟨9, 5, "AGREEMENT_ERRORS", "GRAMMAR", "Kongruenzfehler",
            ["geht".toList], "", none⟩] "intermediate")) :=
  ⟨((C7_quality_thresholds_and_monotone.1
      (analyze_learning_text [] [] "intermediate")).1) rfl,
   C7_quality_thresholds_and_monotone.2
     (analyze_learning_text [] [] "intermediate")
     (analyze_learning_text ("Der Mann gehen zu der Haus.".toList)
       [⟨9, 5, "AGREEMENT_ERRORS", "GRAMMAR", "Kongruenzfehler",
         ["geht".toList], "", none⟩] "intermediate") (by decide)⟩

/-- C8: every feedback or generation operation of the three capability
wrappers fails immediately with the respective uninitialized error when the
wrapper has not been initialized, performing nothing and initializing
nothing; a rejected acquisition makes `initialize` return failure with the
state unchanged for both clients, and any failing analyzer initialization
leaves `_is_initialized` exactly as it was (so a fresh analyzer stays
uninitialized and subsequent operations keep failing the same way). -/
theorem C8_uninitialized_fail_fast :
    (∀ s : LTClientState, s.is_initialized = false →
      ∀ (text : List Char) (toolMatches : List ToolMatch)
        (focus : Option (List String)) (difficulty_level : String),
        s.check_text_op text toolMatches focus
            = .error "LanguageTool not initialized. Call initialize() first." ∧
        s.analyze_learning_text_op text toolMatches difficulty_level
            = .error "LanguageTool not initialized. Call initialize() first.") ∧
    (∀ s : LeoLMState, s.is_initialized = false →
      ∀ (topic difficulty exercise_type : String) (count : Nat)
        (text : List Char) (focus_areas : Option (List String))
        (outcome : GenerationResult),
        s.generate_explanation topic difficulty outcome
            = .error "LeoLM model not initialized. Call initialize() first." ∧
        s.generate_examples topic count difficulty outcome
            = .error "LeoLM model not initialized. Call initialize() first." ∧
        s.generate_exercise topic exercise_type difficulty outcome
            = .error "LeoLM model not initialized. Call initialize() first." ∧
        s.analyze_text text focus_areas outcome
            = .error "LeoLM model not initialized. Call initialize() first.") ∧
    (∀ s : AnalyzerState, s.is_initialized = false →
      ∀ (text : List Char) (toolMatches : List ToolMatch)
        (difficulty_level : String) (b1 b2 b3 : Bool)
        (gen : String → GenerationResult) (llmRes : GenerationResult),
        s.analyze_text_comprehensive text toolMatches difficulty_level b1 b2 b3
            gen llmRes
          = .error (.runtimeError
              "German Language Analyzer not initialized. Call initialize() first.") ∧
        s.quick_check text toolMatches
          = .error (.runtimeError
              "German Language Analyzer not initialized. Call initialize() first.")) ∧
    (∀ s : LTClientState, s.initialize_op false = (s, false)) ∧
    (∀ s : LeoLMState, s.initialize_op false = (s, false)) ∧
    (∀ (s : AnalyzerState) (ltOk leoOk : Bool),
      (s.initialize_op ltOk leoOk).2 = false →
        (s.initialize_op ltOk leoOk).1.is_initialized = s.is_initialized) := by
  refine ⟨?_, ?_, ?_, ?_, ?_, ?_⟩
  · intro s h text toolMatches focus difficulty_level
    constructor <;>
      simp [LTClientState.check_text_op, LTClientState.analyze_learning_text_op,
        LTClientState.ensure_initialized, h, Bind.bind, Except.bind]
  · intro s h topic difficulty exercise_type count text focus_areas outcome
    refine ⟨?_, ?_, ?_, ?_⟩ <;>
      simp [LeoLMState.generate_explanation, LeoLMState.generate_examples,
        LeoLMState.generate_exercise, LeoLMState.analyze_text,
        LeoLMState.ensure_initialized, h, Bind.bind, Except.bind]
  · intro s h text toolMatches difficulty_level b1 b2 b3 gen llmRes
    constructor <;>
      simp [AnalyzerState.analyze_text_comprehensive, AnalyzerState.quick_check,
        AnalyzerState.ensure_initialized, h, Bind.bind, Except.bind]
  · intro s
    rfl
  · intro s
    rfl
  · intro s ltOk leoOk h
    cases ltOk with
    | false =>
      simp [AnalyzerState.initialize_op, LTClientState.initialize_op]
    | true =>
      rcases hc : s.leolm_client with _ | leo
      · simp [AnalyzerState.initialize_op, LTClientState.initialize_op, hc] at h
      · cases leoOk with
        | false =>
          simp [AnalyzerState.initialize_op, LTClientState.initialize_op,
            LeoLMState.initialize_op, hc]
        | true =>
          simp [AnalyzerState.initialize_op, LTClientState.initialize_op,
            LeoLMState.initialize_op, hc] at h

/-- C8 (witness): the guards and the failed-initialization clause
instantiated on the fresh wrapper states and concrete arguments. -/
theorem C8_uninitialized_fail_fast_witness :
    LTClientState.fresh.check_text_op [] [] none
        = .error "LanguageTool not initialized. Call initialize() first." ∧
    LeoLMState.fresh.generate_explanation "Kasus" "intermediate" failedGen
        = .error "LeoLM model not initialized. Call initialize() first." ∧
    (AnalyzerState.fresh true).quick_check [] []
        = .error (.runtimeError
            "German Language Analyzer not initialized. Call initialize() first.") ∧
    ((AnalyzerState.fresh true).initialize_op false true).1.is_initialized = false :=
  ⟨(C8_uninitialized_fail_fast.1 LTClientState.fresh rfl [] [] none
      "intermediate").1,
   (C8_uninitialized_fail_fast.2.1 LeoLMState.fresh rfl "Kasus" "intermediate"
      "fill_blank" 3 [] none failedGen).1,
   (C8_uninitialized_fail_fast.2.2.1 (AnalyzerState.fresh true) rfl [] []
      "intermediate" true true false (fun _ => failedGen) failedGen).2,
   C8_uninitialized_fail_fast.2.2.2.2.2 (AnalyzerState.fresh true) false true
     (by decide)⟩

/-- C10: the configuration lookup is total — each of the three preset names
returns its preset, and every other name silently falls back to the
`default` preset (the full LLM configuration) instead of failing. -/
theorem C10_get_config_total (name : String) :
    get_config "grammar-only" = grammarOnlyConfig ∧
    get_config "fast" = fastConfig ∧
    get_config "default" = defaultConfig ∧
    (name ≠ "grammar-only" → name ≠ "fast" → name ≠ "default" →
      get_config name = defaultConfig) := by
  refine ⟨rfl, rfl, rfl, ?_⟩
  intro h1 h2 h3
  unfold get_config CONFIGS
  simp [List.lookup, beq_eq_false_iff_ne.mpr h1, beq_eq_false_iff_ne.mpr h2,
    beq_eq_false_iff_ne.mpr h3]

/-- C10 (witness): the unknown name `beginner` (used by `examples.py` but
absent from `CONFIGS`) silently receives the `default` preset. -/
theorem C10_get_config_total_witness :
    get_config "beginner" = defaultConfig :=
  (C10_get_config_total "beginner").2.2.2 (by decide) (by decide) (by decide)

/-- C2: on an initialized grammar-only analyzer (`leolm_config` absent, so
`self.leolm_client` is `None`) and a text with one reported span,
`analyze_text_comprehensive` does not return the degraded result the spec
promises: the unguarded call `self.leolm_client.analyze_text(...)` is an
attribute access on `None`, so an `AttributeError` is raised, logged and
re-raised to the caller. -/
theorem C2_grammar_only_comprehensive_raises :
    (((AnalyzerState.fresh false).initialize_op true true).1).analyze_text_comprehensive
        ("Der Mann gehen zu der Haus.".toList)
        [⟨9, 5, "AGREEMENT_ERRORS", "GRAMMAR", "Kongruenzfehler",
          ["geht".toList], "", none⟩]
        "intermediate" true true false (fun _ => failedGen) failedGen
      = .error (.attributeError "NoneType object has no attribute analyze_text") := by
  rfl

end GermanLLM
